import Mathlib

/-!
Verification development for the fishnet component build-and-render engine
(`src/fishnet/src/page/render_context.rs`, `src/fishnet/src/component/build.rs`,
`src/fishnet/src/component/render.rs`, plus the small helpers they use from
`routes.rs`, `css.rs` and `js.rs`).

The Rust code is shallowly embedded as pure Lean functions.  Mutable global
state (the render-context slot, the page's component store behind its mutex
guard, the global resource store, and the mutable state captured by component
renderer closures) is threaded explicitly through a `World` record.  Async
renderer closures are modelled by a small body language (`Item`): a renderer
emits text pieces, may read its own per-component invocation counter (the
model of author-captured mutable state, e.g. a counter that increments on
every render), and may render child components through `render_component`,
exactly like the `c!` macro expansion does.  Machine integers are modelled as
`Nat`; the one place where wrap-around semantics of `usize` matters
(`!context.temporary_render_depth` in `render_component`) is modelled
explicitly via `usizeNot` with `% 2^64`.

Recursion in the engine is re-entrant (a cached dynamic component's render may
recursively call `render_component`), so the interpreter takes a fuel
argument; every mutual function consumes one unit of fuel and returns its
state unchanged when fuel runs out.  Fuel is a ghost bound on recursion depth:
theorems about terminating renders carry an explicit "enough fuel" hypothesis.
-/

namespace Fishnet

/-- Markup (maud's `Markup` / `PreEscaped<String>`) is modelled as a plain
string; `Markup::default()` is the empty string. -/
abbrev Markup := String

/-- Bitwise NOT on `usize` (64-bit), as `Nat` arithmetic: for `n < 2^64`,
`!n = 2^64 - 1 - n`.  This is the meaning of `!` applied to the integer
`temporary_render_depth` in `render_component` (render_context.rs:274). -/
def usizeNot (n : Nat) : Nat := 2 ^ 64 - 1 - n % 2 ^ 64

/-- `css::pascal_to_kebab` (css.rs:6-21): lowercase the first character, and
turn every further uppercase character `C` into `-c`.  The source `unwrap`s on
the first character and so panics on an empty name; component names are never
empty, and the model returns `""` there.  Rust's `is_uppercase` is Unicode
while `Char.isUpper` is ASCII; component names are ASCII. -/
def pascal_to_kebab (input : String) : String :=
  match input.data with
  | [] => ""
  | c :: rest =>
    String.mk (c.toLower ::
      List.foldr (fun ch acc =>
        (if ch.isUpper then ['-', ch.toLower] else [ch]) ++ acc) [] rest)

/-- The markup produced by `html! { div class=(class_name) { (inner) } }`
(build.rs:42-54).  Attribute escaping is irrelevant for generated class
names and is not modelled. -/
def divWrap (class_name inner : String) : String :=
  "<div class=\"" ++ class_name ++ "\">" ++ inner ++ "</div>"

/-- The diagnostic markup returned by `render_component` in debug builds when
no page is being rendered (render_context.rs:203). -/
def errNoPage (context_id : String) : String :=
  "rendering failed for context " ++ context_id ++ ": no page is being rendered"

/-- The diagnostic markup returned by `render_component` when the context
disappeared while a component was being rendered (render_context.rs:234/260). -/
def errExited (context_id : String) : String :=
  "rendering failed for context " ++ context_id ++ ": page render exited"

/-- Association-list lookup with string keys; models `HashMap::get`.  Inserts
are modelled by consing to the front, which matches `HashMap::insert`
(replace) semantics under this front-first lookup. -/
def alookup {α : Type} (k : String) : List (String × α) → Option α
  | [] => none
  | (k', v) :: rest => if k = k' then some v else alookup k rest

/-- `js::ScriptType` (js.rs:10-15). -/
inductive ScriptType where
  | Inline (s : String)
  | External (s : String)
deriving DecidableEq

/-- `css::StyleFragment` (css.rs:28-31): raw css with `&` placeholders plus
media queries. -/
structure StyleFragment where
  style : String
  media_queries : List (String × String)
deriving DecidableEq

/-- `css::RenderedStyle` (css.rs:60-64). -/
structure RenderedStyle where
  style : String
  media_queries : List (String × String)
deriving DecidableEq

/-- `StyleFragment::render` (css.rs:46-57): substitute `&` by the top level
class. -/
def StyleFragment.render (f : StyleFragment) (toplevel_class : String) : RenderedStyle :=
  { style := f.style.replace "&" toplevel_class,
    media_queries := f.media_queries.map
      (fun q => (q.1, q.2.replace "&" toplevel_class)) }

/-- `render_context::GlobalStoreEntry` (render_context.rs:52-55). -/
structure GlobalStoreEntry where
  scripts : List ScriptType
  style : Option RenderedStyle
deriving DecidableEq

/-- `routes::ComponentRoute::new` (routes.rs:20-28), kept as its full route
string `{base_route}/{name}_{id}`. -/
def ComponentRoute.new (base_route name id : String) : String :=
  base_route ++ "/" ++ (name ++ "_" ++ id)

mutual
/-- One step of a component renderer's body: literal markup, a read of the
component's own mutable state (modelled as the number of times this
component's renderer has been invoked, rendered as a tally string), or a
nested `render_component` call as produced by the `c!` macro. -/
inductive Item where
  | text (s : String)
  | counter
  | child (context_id : String) (c : CTree)

/-- A buildable component (`Component<HasRenderer, S, ST>`, component.rs):
name, id, the `is_dynamic` flag set by `render_dynamic`, whether a router
and a runner were attached, its scripts and optional style, and its renderer
body. -/
inductive CTree where
  | mk (name : String) (id : String) (is_dynamic : Bool)
       (hasRouter : Bool) (hasRunner : Bool)
       (scripts : List ScriptType) (style : Option StyleFragment)
       (items : List Item)
end

def CTree.name : CTree → String
  | .mk n _ _ _ _ _ _ _ => n

def CTree.id : CTree → String
  | .mk _ i _ _ _ _ _ _ => i

def CTree.is_dynamic : CTree → Bool
  | .mk _ _ d _ _ _ _ _ => d

def CTree.hasRouter : CTree → Bool
  | .mk _ _ _ r _ _ _ _ => r

def CTree.hasRunner : CTree → Bool
  | .mk _ _ _ _ r _ _ _ => r

def CTree.scripts : CTree → List ScriptType
  | .mk _ _ _ _ _ s _ _ => s

def CTree.style : CTree → Option StyleFragment
  | .mk _ _ _ _ _ _ s _ => s

def CTree.items : CTree → List Item
  | .mk _ _ _ _ _ _ _ it => it

/-- `render::StatefulContentRenderer` (render.rs:10-16): the renderer closure
together with its captured state.  In the model the body is the item list and
the captured mutable state is keyed by the component id in the world's
invocation table. -/
structure StatefulContentRenderer where
  compId : String
  items : List Item

/-- `render::ContentType` (render.rs:41-44). -/
inductive ContentType where
  | Dynamic (renderer : StatefulContentRenderer)
  | Static (content : Markup)

/-- `ContentType::render_if_static` (render.rs:54-59); pure, does not invoke
the renderer. -/
def ContentType.render_if_static : ContentType → Option Markup
  | ContentType.Static content => some content
  | _ => none

/-- `build::BuiltComponent` (build.rs:15-24). -/
structure BuiltComponent where
  name : String
  id : String
  class_name : String
  content : ContentType

/-- `BuiltComponent::is_dynamic` (build.rs:56-61). -/
def BuiltComponent.is_dynamic (bc : BuiltComponent) : Bool :=
  match bc.content with
  | ContentType.Static _ => false
  | _ => true

/-- `BuiltComponent::render_if_static` (build.rs:48-54): the static snapshot
wrapped in the component's class div. -/
def BuiltComponent.render_if_static (bc : BuiltComponent) : Option Markup :=
  bc.content.render_if_static.map (fun content => divWrap bc.class_name content)

/-- Modelled from the spec: `BuiltComponent::content_cloned` is called at
render_context.rs:217 but is not defined anywhere under `src/`.  Per the spec,
a cached `BuiltComponent` is "shared (read-only, cheaply cloned) with every
subsequent render call for the same identity" (§3) and the cached path awaits
"the cached component's render (or its static-only snapshot, if currently
inside a temporary render)" (§4.4) — i.e. the clone renders exactly like the
component itself, div wrapper included.  So `content_cloned` is modelled as a
clone of the built component. -/
def BuiltComponent.content_cloned (bc : BuiltComponent) : BuiltComponent := bc

/-- `build::ComponentBuildResult` (build.rs:26-31).  The runner future is
modelled as a token carrying the component id; the `(ComponentRoute, Router)`
pair is modelled by the route string. -/
structure ComponentBuildResult where
  built_component : BuiltComponent
  runner : Option String
  router : Option String

/-- `render_context::RenderContext` (render_context.rs:100-112).  The
`components: OwnedMutexGuard<ComponentStore>` field is modelled by the
`components` field of `World`: while a context is active it owns the page's
store, and the store outlives the context exactly as the `Arc` behind the
guard does. -/
structure RenderContext where
  base_route : String
  new_globals : List String
  static_state : Bool
  temporary_render_depth : Nat
  new_runners : List String
  new_routers : List String

/-- `RenderContext::new` (render_context.rs:114-127). -/
def RenderContext.new (base_route : String) : RenderContext :=
  { base_route := base_route,
    new_globals := [],
    static_state := false,
    temporary_render_depth := 0,
    new_runners := [],
    new_routers := [] }

/-- `render_context::RenderResult` (render_context.rs:148-152). -/
structure RenderResult where
  runners : List String
  routers : List String
  new_components : List String

/-- `RenderContext::finish` (render_context.rs:129-135). -/
def RenderContext.finish (c : RenderContext) : RenderResult :=
  { runners := c.new_runners,
    routers := c.new_routers,
    new_components := c.new_globals }

/-- `RenderContext::notify_global` (render_context.rs:137-139); `new_globals`
is a `HashSet`, so insertion is idempotent. -/
def RenderContext.notify_global (c : RenderContext) (id : String) : RenderContext :=
  { c with new_globals := if id ∈ c.new_globals then c.new_globals else id :: c.new_globals }

/-- The explicit global state threaded through the interpreter:
* `ctx`    — the process-wide render-context slot (render_context.rs:29-32);
* `components` — the active page's `ComponentStore` (the data behind the
  `OwnedMutexGuard` while a context is active; it persists across renders);
* `gstore` — the process-wide `GlobalStore` map (render_context.rs:59);
* `invocations` — per component id, how many times its renderer closure has
  been invoked (the model of renderer-captured mutable state);
* `thunkEvals` — ghost instrumentation: the number of times a
  `GlobalStore::add` lazy initializer closure has been evaluated. -/
structure World where
  ctx : Option RenderContext
  components : List (String × BuiltComponent)
  gstore : List (String × GlobalStoreEntry)
  invocations : List (String × Nat)
  thunkEvals : Nat

/-- `page::BuiltPage`, restricted to the two fields the render context reads
(page.rs:29, render_context.rs:166): its api path and its component store. -/
structure BuiltPage where
  api_path : String
  components : List (String × BuiltComponent)

/-- `render_context::enter_page` (render_context.rs:159-167): install a fresh
context for the page (replacing, with a logged warning, any context that is
still active) and take the page's component store. -/
def enter_page (w : World) (page : BuiltPage) : World :=
  { w with ctx := some (RenderContext.new page.api_path),
           components := page.components }

/-- `render_context::exit_page` (render_context.rs:174-181).  The source
`expect`s — i.e. panics — when no page is being rendered; the panic is
modelled as `Except.error` carrying the panic message. -/
def exit_page (w : World) : World × Except String RenderResult :=
  match w.ctx with
  | none => (w, Except.error "tried to exit a page while no page is being rendered")
  | some context => ({ w with ctx := none }, Except.ok context.finish)

/-- `render_context::enter_temporary_render` (render_context.rs:295-304). -/
def enter_temporary_render (w : World) : World :=
  match w.ctx with
  | none => w
  | some context =>
    let context := if context.temporary_render_depth = 0
      then { context with static_state := true } else context
    let context := { context with temporary_render_depth := context.temporary_render_depth + 1 }
    { w with ctx := some context }

/-- `render_context::exit_temporary_render` (render_context.rs:312-329). -/
def exit_temporary_render (w : World) : World × Bool :=
  match w.ctx with
  | none => (w, true)
  | some context =>
    if context.temporary_render_depth = 0 then (w, true)
    else
      let context := { context with temporary_render_depth := context.temporary_render_depth - 1 }
      ({ w with ctx := some context }, context.static_state)

/-- `GlobalStore::add` (render_context.rs:72-87): insert only if the id is
absent, evaluating the lazy `globals` closure exactly on that cache miss, and
then notify the active render context (if any) about the new resource.  The
function returns `()` in the source; its state effect is returned here.  The
ghost counter `thunkEvals` records closure evaluations. -/
def GlobalStore.add (w : World) (id : String) (globals : Unit → GlobalStoreEntry) : World :=
  match alookup id w.gstore with
  | none =>
    let entry := globals ()
    let w := { w with gstore := (id, entry) :: w.gstore, thunkEvals := w.thunkEvals + 1 }
    match w.ctx with
    | none => w
    | some context => { w with ctx := some (context.notify_global id) }
  | some _ => w

/-- The caller-visible return value of `GlobalStore::add`: the Rust function
has return type `()`, so the caller receives the unit value whether or not an
insertion occurred. -/
def GlobalStore.addReturn (_w : World) (_id : String)
    (_globals : Unit → GlobalStoreEntry) : Unit := ()

/-- `GlobalStore::get` (render_context.rs:90-92). -/
def GlobalStore.get (w : World) (id : String) : Option GlobalStoreEntry :=
  alookup id w.gstore

/-- Number of recorded invocations of a component's renderer closure. -/
def countOf (compId : String) (l : List (String × Nat)) : Nat :=
  match alookup compId l with
  | some n => n
  | none => 0

/-- Record one more invocation of a component's renderer closure. -/
def bumpCount (compId : String) : List (String × Nat) → List (String × Nat)
  | [] => [(compId, 1)]
  | (k, n) :: rest =>
    if compId = k then (k, n + 1) :: rest else (k, n) :: bumpCount compId rest

/-- The tally-mark rendering of the invocation counter used by the `counter`
body item (a renderer-visible counter that increments on every invocation). -/
def tally (n : Nat) : String := String.mk (List.replicate n 'i')

mutual
/-- `render_context::render_component` (render_context.rs:190-283).  The lock
drops/re-acquisitions around the recursive render calls become sequential
threading of `World`; the `context_guard.is_none()` re-checks after each
re-acquisition are kept.  `dbg` models `cfg(debug_assertions)`.  Note the
insertion condition at render_context.rs:274 is `!context.temporary_render_depth > 0`,
which in Rust is bitwise NOT on the `usize` depth compared with `0` —
modelled faithfully via `usizeNot`. -/
def render_component (fuel : Nat) (dbg : Bool) (context_id : String)
    (lazy_component : Unit → CTree) (w : World) : World × Markup :=
  match w.ctx with
  | none =>
    (w, if dbg then errNoPage context_id else "")
  | some context =>
    match fuel with
    | 0 => (w, "")
    | fuel + 1 =>
      let is_temporary := decide (context.temporary_render_depth > 0)
      match alookup context_id w.components with
      | some existing_component =>
        let content := existing_component.content_cloned
        -- locks dropped before rendering (render_context.rs:219)
        if is_temporary then
          let render := content.render_if_static.getD ""
          match w.ctx with
          | none => (w, errExited context_id)
          | some _ => (w, render)
        else
          let p := BuiltComponent.render fuel dbg content w
          match p.1.ctx with
          | none => (p.1, errExited context_id)
          | some _ => (p.1, p.2)
      | none =>
        let base_route := context.base_route
        -- locks dropped before building (render_context.rs:239)
        let pb := CTree.build fuel dbg (lazy_component ()) base_route w
        let new_component := pb.2
        let pr :=
          if is_temporary then
            (pb.1, new_component.built_component.render_if_static.getD "")
          else
            BuiltComponent.render fuel dbg new_component.built_component pb.1
        match pr.1.ctx with
        | none => (pr.1, errExited context_id)
        | some context2 =>
          let context2 :=
            { context2 with static_state :=
                context2.static_state && ! new_component.built_component.is_dynamic }
          let context2 :=
            match new_component.router with
            | some router => { context2 with new_routers := context2.new_routers ++ [router] }
            | none => context2
          let context2 :=
            match new_component.runner with
            | some runner => { context2 with new_runners := context2.new_runners ++ [runner] }
            | none => context2
          if usizeNot context2.temporary_render_depth > 0 then
            let w2 := { pr.1 with ctx := some context2 }
            let w2 := { w2 with components := (context_id, new_component.built_component) :: w2.components }
            (w2, pr.2)
          else
            ({ pr.1 with ctx := some context2 }, pr.2)

/-- `BuildableComponent::build` (build.rs:86-142): probe non-forced components
inside a temporary render, classify the content, then register the
component's style/scripts in the global store under the component id. -/
def CTree.build (fuel : Nat) (dbg : Bool) (c : CTree) (base_route : String)
    (w : World) : World × ComponentBuildResult :=
  match fuel with
  | 0 =>
    (w, { built_component :=
            { name := c.name, id := c.id, class_name := "", content := ContentType.Static "" },
          runner := none, router := none })
  | fuel + 1 =>
    let api_route := ComponentRoute.new base_route c.name c.id
    let router := if c.hasRouter then some api_route else none
    let runner := if c.hasRunner then some c.id else none
    let pc :=
      if ! c.is_dynamic then
        let wa := enter_temporary_render w
        let pr := invokeRenderer fuel dbg c.id c.items wa
        let pe := exit_temporary_render pr.1
        if ! pe.2 then
          (pe.1, ContentType.Dynamic { compId := c.id, items := c.items })
        else
          (pe.1, ContentType.Static pr.2)
      else
        (w, ContentType.Dynamic { compId := c.id, items := c.items })
    let class_name := pascal_to_kebab c.name
    let style := c.style.map (fun s => s.render class_name)
    let w2 := GlobalStore.add pc.1 c.id
      (fun _ => { scripts := c.scripts, style := style })
    (w2, { built_component :=
             { name := c.name, id := c.id, class_name := class_name, content := pc.2 },
           runner := runner, router := router })

/-- One invocation of a component's renderer closure
(`renderer(state.clone()).await`, build.rs:108 / render.rs:36-38): record the
invocation in the component's captured state and evaluate the body with the
new invocation count. -/
def invokeRenderer (fuel : Nat) (dbg : Bool) (compId : String) (items : List Item)
    (w : World) : World × Markup :=
  match fuel with
  | 0 => (w, "")
  | fuel + 1 =>
    let n := countOf compId w.invocations + 1
    let w := { w with invocations := bumpCount compId w.invocations }
    renderItems fuel dbg items n w

/-- Evaluate a renderer body: concatenate literal text, the tally rendering of
the invocation counter `n`, and recursive `render_component` calls. -/
def renderItems (fuel : Nat) (dbg : Bool) (items : List Item) (n : Nat)
    (w : World) : World × Markup :=
  match fuel with
  | 0 => (w, "")
  | fuel + 1 =>
    match items with
    | [] => (w, "")
    | Item.text s :: rest =>
      let p := renderItems fuel dbg rest n w
      (p.1, s ++ p.2)
    | Item.counter :: rest =>
      let p := renderItems fuel dbg rest n w
      (p.1, tally n ++ p.2)
    | Item.child context_id t :: rest =>
      let p := render_component fuel dbg context_id (fun _ => t) w
      let q := renderItems fuel dbg rest n p.1
      (q.1, p.2 ++ q.2)

/-- `ContentType::render` (render.rs:46-51): static content is returned as-is,
dynamic content re-invokes the stored renderer. -/
def ContentType.render (fuel : Nat) (dbg : Bool) (ct : ContentType)
    (w : World) : World × Markup :=
  match fuel with
  | 0 => (w, "")
  | fuel + 1 =>
    match ct with
    | ContentType.Dynamic renderer => invokeRenderer fuel dbg renderer.compId renderer.items w
    | ContentType.Static content => (w, content)

/-- `BuiltComponent::render` (build.rs:42-46): the content wrapped in the
component's class div. -/
def BuiltComponent.render (fuel : Nat) (dbg : Bool) (bc : BuiltComponent)
    (w : World) : World × Markup :=
  match fuel with
  | 0 => (w, "")
  | fuel + 1 =>
    let p := ContentType.render fuel dbg bc.content w
    (p.1, divWrap bc.class_name p.2)
end

mutual
/-- A component tree is entirely static: the component is not forced-dynamic
and no reachable descendant component is forced-dynamic. -/
def CTree.allStatic : CTree → Bool
  | .mk _ _ dyn _ _ _ _ items => !dyn && Item.listAllStatic items

def Item.allStatic : Item → Bool
  | .text _ => true
  | .counter => true
  | .child _ t => CTree.allStatic t

def Item.listAllStatic : List Item → Bool
  | [] => true
  | i :: rest => Item.allStatic i && Item.listAllStatic rest
end

mutual
/-- All render call-site context ids occurring in a component's body
(recursively). -/
def CTree.ctxIds : CTree → List String
  | .mk _ _ _ _ _ _ _ items => Item.listCtxIds items

def Item.ctxIds : Item → List String
  | .text _ => []
  | .counter => []
  | .child context_id t => context_id :: CTree.ctxIds t

def Item.listCtxIds : List Item → List String
  | [] => []
  | i :: rest => Item.ctxIds i ++ Item.listCtxIds rest
end

mutual
/-- All component ids (renderer-state keys) occurring in a component tree,
including its own. -/
def CTree.compIds : CTree → List String
  | .mk _ i _ _ _ _ _ items => i :: Item.listCompIds items

def Item.compIds : Item → List String
  | .text _ => []
  | .counter => []
  | .child _ t => CTree.compIds t

def Item.listCompIds : List Item → List String
  | [] => []
  | i :: rest => Item.compIds i ++ Item.listCompIds rest
end

/-- A renderer body with no nested component render calls. -/
def Item.noChild : List Item → Bool
  | [] => true
  | Item.child _ _ :: _ => false
  | _ :: rest => Item.noChild rest

mutual
/-- A component tree contains a forced-dynamic component (itself or a
reachable descendant).  This is the complement of `allStatic`. -/
def CTree.hasForced : CTree → Bool
  | .mk _ _ dyn _ _ _ _ items => dyn || Item.listHasForced items

def Item.hasForced : Item → Bool
  | .text _ => false
  | .counter => false
  | .child _ t => CTree.hasForced t

def Item.listHasForced : List Item → Bool
  | [] => false
  | i :: rest => Item.hasForced i || Item.listHasForced rest
end

/-- All the given call-site ids are absent from the active page's component
store. -/
def FreshIds (ids : List String) (w : World) : Prop :=
  ∀ x ∈ ids, alookup x w.components = none

/-- The temporary-render depth of the active context, if any. -/
def ctxDepth (w : World) : Option Nat :=
  w.ctx.map (fun c => c.temporary_render_depth)

/-- The `static_state` flag of the active context, if any. -/
def ctxFlag (w : World) : Option Bool :=
  w.ctx.map (fun c => c.static_state)

/-- The base route of the active context, if any. -/
def ctxBase (w : World) : Option String :=
  w.ctx.map (fun c => c.base_route)

theorem alookup_cons_self {α : Type} (k : String) (v : α) (l : List (String × α)) :
    alookup k ((k, v) :: l) = some v := by
  simp [alookup]

theorem alookup_cons_ne {α : Type} {k k' : String} (v : α) (l : List (String × α))
    (h : k ≠ k') : alookup k ((k', v) :: l) = alookup k l := by
  simp [alookup, h]

theorem countOf_bump_self (k : String) (l : List (String × Nat)) :
    countOf k (bumpCount k l) = countOf k l + 1 := by
  induction l with
  | nil => simp [countOf, bumpCount, alookup]
  | cons p rest ih =>
    by_cases h : k = p.1
    · subst h
      simp [countOf, bumpCount, alookup]
    · simp [countOf, bumpCount, alookup, h] at ih ⊢
      exact ih

theorem countOf_bump_ne {k k' : String} (l : List (String × Nat)) (h : k ≠ k') :
    countOf k (bumpCount k' l) = countOf k l := by
  induction l with
  | nil => simp [countOf, bumpCount, alookup, h]
  | cons p rest ih =>
    by_cases h2 : k' = p.1
    · subst h2
      simp [countOf, bumpCount, alookup, h]
    · by_cases h3 : k = p.1
      · subst h3
        simp [countOf, bumpCount, alookup, h2, Ne.symm h]
      · simp [countOf, bumpCount, alookup, h2, h3] at ih ⊢
        exact ih

/-- Closed form of `GlobalStore.add`. -/
theorem global_add_eq (w : World) (id : String) (f : Unit → GlobalStoreEntry) :
    GlobalStore.add w id f =
      match alookup id w.gstore with
      | none =>
        { w with gstore := (id, f ()) :: w.gstore, thunkEvals := w.thunkEvals + 1,
                 ctx := Option.map (fun c => c.notify_global id) w.ctx }
      | some _ => w := by
  cases h : alookup id w.gstore <;> cases hc : w.ctx <;>
    simp [GlobalStore.add, h, hc]

theorem global_add_components (w : World) (id : String) (f : Unit → GlobalStoreEntry) :
    (GlobalStore.add w id f).components = w.components := by
  rw [global_add_eq]
  cases alookup id w.gstore <;> rfl

theorem global_add_invocations (w : World) (id : String) (f : Unit → GlobalStoreEntry) :
    (GlobalStore.add w id f).invocations = w.invocations := by
  rw [global_add_eq]
  cases alookup id w.gstore <;> rfl

theorem global_add_ctx_some (w : World) (id : String) (f : Unit → GlobalStoreEntry)
    (context : RenderContext) (h : w.ctx = some context) :
    ∃ context2, (GlobalStore.add w id f).ctx = some context2 ∧
      context2.temporary_render_depth = context.temporary_render_depth ∧
      context2.static_state = context.static_state ∧
      context2.base_route = context.base_route ∧
      context2.new_runners = context.new_runners ∧
      context2.new_routers = context.new_routers := by
  rw [global_add_eq]
  cases hg : alookup id w.gstore with
  | none =>
    refine ⟨context.notify_global id, ?_⟩
    simp [h, RenderContext.notify_global]
  | some e => exact ⟨context, h, rfl, rfl, rfl, rfl, rfl⟩

/-- C9: calling `render_component` while no render context is active never
aborts the caller: it reports an error and returns the diagnostic placeholder
markup in debug builds (`dbg = true`) and empty markup in production builds,
leaving the world unchanged and never evaluating the lazy component (the
result does not depend on `lazy_component`). -/
theorem c9_render_no_context (fuel : Nat) (dbg : Bool) (context_id : String)
    (lazy_component : Unit → CTree) (w : World) (h : w.ctx = none) :
    render_component fuel dbg context_id lazy_component w
      = (w, if dbg then errNoPage context_id else "") := by
  cases fuel <;> simp [render_component, h]

theorem c9_render_no_context_witness :
    render_component 7 true "abc" (fun _ => CTree.mk "X" "x" false false false [] none [])
        ⟨none, [], [], [], 0⟩
      = (⟨none, [], [], [], 0⟩, if true then errNoPage "abc" else "") :=
  c9_render_no_context 7 true "abc" _ _ rfl

/-- C10: the temporary-render depth counter never underflows: calling
`exit_temporary_render` with no active render context, or with an active
context at depth 0, leaves the world unchanged (in particular the depth stays
0), does not panic, and returns `true`; `enter_temporary_render` with no
active context is a no-op. -/
theorem c10_depth_no_underflow :
    (∀ w : World, w.ctx = none →
      enter_temporary_render w = w ∧ exit_temporary_render w = (w, true)) ∧
    (∀ (w : World) (context : RenderContext), w.ctx = some context →
      context.temporary_render_depth = 0 →
      exit_temporary_render w = (w, true)) := by
  constructor
  · intro w h
    constructor
    · simp [enter_temporary_render, h]
    · simp [exit_temporary_render, h]
  · intro w context h hd
    simp [exit_temporary_render, h, hd]

theorem c10_depth_no_underflow_witness :
    (enter_temporary_render ⟨none, [], [], [], 0⟩ = ⟨none, [], [], [], 0⟩ ∧
      exit_temporary_render ⟨none, [], [], [], 0⟩ = (⟨none, [], [], [], 0⟩, true)) ∧
    exit_temporary_render (enter_page ⟨none, [], [], [], 0⟩ ⟨"/api", []⟩)
      = (enter_page ⟨none, [], [], [], 0⟩ ⟨"/api", []⟩, true) :=
  ⟨c10_depth_no_underflow.1 _ rfl,
   c10_depth_no_underflow.2 _ (RenderContext.new "/api") rfl rfl⟩

/-- C2 counterexample: `exit_page` called while no page render context is
active does panic the caller — the source `expect`s on the empty context slot
(render_context.rs:177-180, and its doc comment documents the panic), so the
result is the panic (modelled as `Except.error` with the panic message), not a
non-panicking error report. -/
theorem c2_exit_page_panics_without_context :
    exit_page ⟨none, [], [], [], 0⟩
      = (⟨none, [], [], [], 0⟩,
         Except.error "tried to exit a page while no page is being rendered") := rfl

/-- C2 as amended: `exit_page` with no active context panics with the message
"tried to exit a page while no page is being rendered" (this is documented
behaviour of the function); with an active context it drains and returns the
accumulated background runners, sub-routers and new global-resource ids, and
clears the active context. -/
theorem c2_exit_page_behavior :
    (∀ w : World, w.ctx = none →
      exit_page w
        = (w, Except.error "tried to exit a page while no page is being rendered")) ∧
    (∀ (w : World) (context : RenderContext), w.ctx = some context →
      exit_page w
        = ({ w with ctx := none },
           Except.ok { runners := context.new_runners, routers := context.new_routers,
                       new_components := context.new_globals })) := by
  constructor
  · intro w h
    simp [exit_page, h]
  · intro w context h
    simp [exit_page, h, RenderContext.finish]

theorem c2_exit_page_behavior_witness :
    exit_page ⟨none, [], [], [], 0⟩
        = (⟨none, [], [], [], 0⟩,
           Except.error "tried to exit a page while no page is being rendered") ∧
    exit_page ⟨some ⟨"/api", ["g1"], true, 0, ["r1"], ["rt1"]⟩, [], [], [], 3⟩
        = (⟨none, [], [], [], 3⟩,
           Except.ok { runners := ["r1"], routers := ["rt1"], new_components := ["g1"] }) :=
  ⟨c2_exit_page_behavior.1 _ rfl,
   c2_exit_page_behavior.2 ⟨some ⟨"/api", ["g1"], true, 0, ["r1"], ["rt1"]⟩, [], [], [], 3⟩
     ⟨"/api", ["g1"], true, 0, ["r1"], ["rt1"]⟩ rfl⟩

/-- C5 counterexample: `GlobalStore::add` does not return "not new" (nor
"new"): its return type is unit, so the caller receives the very same value
whether the call inserted (first call on a fresh id, shown to change the
store) or was a no-op (second call on an occupied id, shown to leave the
world unchanged).  The notification of the active render context — not a
return value — is the only "newness" signal. -/
theorem c5_add_returns_no_value :
    GlobalStore.addReturn ⟨none, [], [], [], 0⟩ "x" (fun _ => ⟨[], none⟩)
        = GlobalStore.addReturn ⟨none, [], [("x", ⟨[], none⟩)], [], 1⟩ "x" (fun _ => ⟨[], none⟩) ∧
    (GlobalStore.add ⟨none, [], [], [], 0⟩ "x" (fun _ => ⟨[], none⟩)).gstore ≠ [] ∧
    GlobalStore.add ⟨none, [], [("x", ⟨[], none⟩)], [], 1⟩ "x" (fun _ => ⟨[], none⟩)
        = ⟨none, [], [("x", ⟨[], none⟩)], [], 1⟩ := by
  refine ⟨rfl, ?_, rfl⟩
  decide

/-- C5 as amended: for every resource identity, `GlobalStore.add` invoked
twice with that identity evaluates its lazy initializer only once (the ghost
evaluation counter increases exactly once, and the second closure is never
evaluated — the result does not depend on it), notifies the active render
context of the new resource only on the first call, and the second call is a
complete no-op (world unchanged); `add` itself returns no value. -/
theorem c5_add_at_most_once (w : World) (id : String)
    (f g : Unit → GlobalStoreEntry) (h : alookup id w.gstore = none) :
    GlobalStore.add (GlobalStore.add w id f) id g = GlobalStore.add w id f ∧
    (GlobalStore.add w id f).thunkEvals = w.thunkEvals + 1 ∧
    alookup id (GlobalStore.add w id f).gstore = some (f ()) ∧
    (GlobalStore.add w id f).ctx
      = Option.map (fun c => c.notify_global id) w.ctx ∧
    (GlobalStore.add w id f).components = w.components ∧
    (GlobalStore.add w id f).invocations = w.invocations := by
  have h1 : GlobalStore.add w id f = { w with gstore := (id, f ()) :: w.gstore, thunkEvals := w.thunkEvals + 1, ctx := Option.map (fun c => c.notify_global id) w.ctx } := by
    rw [global_add_eq, h]
  have h2 : alookup id (GlobalStore.add w id f).gstore = some (f ()) := by
    rw [h1]
    exact alookup_cons_self id (f ()) w.gstore
  refine ⟨?_, by rw [h1], h2, by rw [h1], by rw [h1], by rw [h1]⟩
  rw [global_add_eq (GlobalStore.add w id f) id g, h2]

theorem c5_add_at_most_once_witness :
    GlobalStore.add
        (GlobalStore.add ⟨none, [], [], [], 0⟩ "x" (fun _ => ⟨[ScriptType.Inline "a"], none⟩))
        "x" (fun _ => ⟨[ScriptType.Inline "b"], none⟩)
      = GlobalStore.add ⟨none, [], [], [], 0⟩ "x" (fun _ => ⟨[ScriptType.Inline "a"], none⟩) ∧
    (GlobalStore.add ⟨none, [], [], [], 0⟩ "x"
        (fun _ => ⟨[ScriptType.Inline "a"], none⟩)).thunkEvals = 0 + 1 ∧
    alookup "x" (GlobalStore.add ⟨none, [], [], [], 0⟩ "x"
        (fun _ => ⟨[ScriptType.Inline "a"], none⟩)).gstore
      = some ⟨[ScriptType.Inline "a"], none⟩ ∧
    (GlobalStore.add ⟨none, [], [], [], 0⟩ "x"
        (fun _ => ⟨[ScriptType.Inline "a"], none⟩)).ctx
      = Option.map (fun c => c.notify_global "x") (none : Option RenderContext) ∧
    (GlobalStore.add ⟨none, [], [], [], 0⟩ "x"
        (fun _ => ⟨[ScriptType.Inline "a"], none⟩)).components = [] ∧
    (GlobalStore.add ⟨none, [], [], [], 0⟩ "x"
        (fun _ => ⟨[ScriptType.Inline "a"], none⟩)).invocations = [] :=
  c5_add_at_most_once ⟨none, [], [], [], 0⟩ "x" _ _ rfl

/-- C1: the failing input evaluated.  With an active page context inside a
temporary render (depth 1, empty store), `render_component` of a fresh static
leaf does insert a `BuiltComponent` into the page's component store: the
condition at render_context.rs:274 is `(!depth) > 0` with bitwise NOT on the
`usize` depth, which holds for every depth below `usize::MAX`, so the store is
changed by the call — contradicting the claim and the function's own
documentation that components are not saved during a temporary render. -/
theorem c1_render_component_inserts_during_probe :
    (ctxDepth (enter_temporary_render (enter_page ⟨none, [], [], [], 0⟩ ⟨"/api", []⟩))
        = some 1) ∧
    (enter_temporary_render (enter_page ⟨none, [], [], [], 0⟩ ⟨"/api", []⟩)).components = [] ∧
    (alookup "cX"
      (render_component 10 true "cX"
        (fun _ => CTree.mk "Leaf" "l1" false false false [] none [Item.text "hi"])
        (enter_temporary_render (enter_page ⟨none, [], [], [], 0⟩ ⟨"/api", []⟩))).1.components).isSome
      = true := by
  refine ⟨rfl, rfl, ?_⟩
  decide

/-- C4 counterexample: a matched `enter_temporary_render` /
`exit_temporary_render` pair between which nothing at all is rendered (so the
probe's own subtree is trivially entirely static) still returns `false` when a
dynamic component was rendered earlier inside the enclosing probe: the
`static_state` flag is shared across nesting levels and only reset on the
0→1 transition. -/
theorem c4_exit_not_own_subtree :
    (exit_temporary_render
      (enter_temporary_render
        (render_component 10 true "cA"
          (fun _ => CTree.mk "Dyn" "d1" true false false [] none [])
          (enter_temporary_render
            (enter_page ⟨none, [], [], [], 0⟩ ⟨"/api", []⟩))).1)).2 = false := by
  decide

/-- Building a forced-dynamic component takes the `else` branch of build.rs:105:
no temporary render is entered, the renderer is not invoked, the content is
`Dynamic` immediately, and the only state effect is the global-store
registration of the component's scripts and style. -/
theorem build_forced_eq (fuel : Nat) (dbg : Bool) (c : CTree) (base_route : String)
    (w : World) (hdyn : c.is_dynamic = true) :
    CTree.build (fuel + 1) dbg c base_route w
      = (GlobalStore.add w c.id (fun _ => { scripts := c.scripts, style := c.style.map (fun s => s.render (pascal_to_kebab c.name)) }),
         { built_component := { name := c.name, id := c.id, class_name := pascal_to_kebab c.name, content := ContentType.Dynamic { compId := c.id, items := c.items } },
           runner := if c.hasRunner then some c.id else none,
           router := if c.hasRouter then some (ComponentRoute.new base_route c.name c.id) else none }) := by
  simp [CTree.build, hdyn]

theorem renderItems_noChild_world (fuel : Nat) (dbg : Bool) (items : List Item) (n : Nat)
    (w : World) (h : Item.noChild items = true) :
    (renderItems fuel dbg items n w).1 = w := by
  induction fuel generalizing items with
  | zero => simp [renderItems]
  | succ fuel ih =>
    cases items with
    | nil => simp [renderItems]
    | cons i rest =>
      cases i with
      | text s =>
        simp only [Item.noChild] at h
        simp [renderItems, ih rest h]
      | counter =>
        simp only [Item.noChild] at h
        simp [renderItems, ih rest h]
      | child context_id t => simp [Item.noChild] at h

/-- Rendering a built dynamic component whose body has no nested component
calls records exactly one more invocation of its renderer and leaves the rest
of the world unchanged. -/
theorem built_dynamic_render_world (k : Nat) (dbg : Bool) (nm i cls compId : String)
    (items : List Item) (w : World) (h : Item.noChild items = true) :
    (BuiltComponent.render (k + 3) dbg
        ⟨nm, i, cls, ContentType.Dynamic ⟨compId, items⟩⟩ w).1
      = { w with invocations := bumpCount compId w.invocations } := by
  simp [BuiltComponent.render, ContentType.render, invokeRenderer]
  exact renderItems_noChild_world k dbg items _ _ h

/-- Rendering a built dynamic component whose body is a single counter read
produces the tally of the new invocation count, wrapped in the class div. -/
theorem built_dynamic_counter_render (k : Nat) (dbg : Bool) (nm i cls compId : String)
    (w : World) :
    BuiltComponent.render (k + 4) dbg
        ⟨nm, i, cls, ContentType.Dynamic ⟨compId, [Item.counter]⟩⟩ w
      = ({ w with invocations := bumpCount compId w.invocations },
         divWrap cls (tally (countOf compId w.invocations + 1))) := by
  cases k <;>
    simp [BuiltComponent.render, ContentType.render, invokeRenderer, renderItems]

theorem tally_length (n : Nat) : (tally n).length = n := by
  simp [tally]

theorem divWrap_ne_of_length {cls a b : String} (h : a.length ≠ b.length) :
    divWrap cls a ≠ divWrap cls b := by
  intro he
  apply h
  have hl : (divWrap cls a).length = (divWrap cls b).length := he ▸ rfl
  simp [divWrap, String.length_append] at hl
  omega

theorem global_add_ctxDepth (w : World) (id : String) (f : Unit → GlobalStoreEntry) :
    ctxDepth (GlobalStore.add w id f) = ctxDepth w := by
  rw [global_add_eq]
  cases h : alookup id w.gstore <;> cases hc : w.ctx <;>
    simp [ctxDepth, RenderContext.notify_global, hc]

theorem global_add_ctxFlag (w : World) (id : String) (f : Unit → GlobalStoreEntry) :
    ctxFlag (GlobalStore.add w id f) = ctxFlag w := by
  rw [global_add_eq]
  cases h : alookup id w.gstore <;> cases hc : w.ctx <;>
    simp [ctxFlag, RenderContext.notify_global, hc]

/-- C7: a component declared forced-dynamic (`render_dynamic`) is built with
`Dynamic` content immediately, skipping the temporary-render probe (the
context's depth and `static_state` flag are untouched and the renderer is not
invoked during build), and its content is never frozen as `Static`; each call
to the built component's render invokes the renderer closure anew — with a
counter body, rendering twice records two invocations and the two markups are
the distinct outputs of two independent evaluations. -/
theorem c7_forced_dynamic (fuel : Nat) (dbg : Bool) (c : CTree) (base_route : String)
    (w : World) (hdyn : c.is_dynamic = true) :
    ∀ pb, pb = CTree.build (fuel + 1) dbg c base_route w →
      pb.2.built_component.content
          = ContentType.Dynamic { compId := c.id, items := c.items } ∧
      pb.2.built_component.is_dynamic = true ∧
      ctxDepth pb.1 = ctxDepth w ∧
      ctxFlag pb.1 = ctxFlag w ∧
      pb.1.invocations = w.invocations ∧
      (c.items = [Item.counter] → ∀ (k1 k2 : Nat) (w2 : World),
        (BuiltComponent.render (k1 + 4) dbg pb.2.built_component w2).2
            = divWrap (pascal_to_kebab c.name) (tally (countOf c.id w2.invocations + 1)) ∧
        (BuiltComponent.render (k2 + 4) dbg pb.2.built_component
            (BuiltComponent.render (k1 + 4) dbg pb.2.built_component w2).1).2
            = divWrap (pascal_to_kebab c.name) (tally (countOf c.id w2.invocations + 2)) ∧
        (BuiltComponent.render (k1 + 4) dbg pb.2.built_component w2).2
            ≠ (BuiltComponent.render (k2 + 4) dbg pb.2.built_component
                (BuiltComponent.render (k1 + 4) dbg pb.2.built_component w2).1).2 ∧
        countOf c.id (BuiltComponent.render (k1 + 4) dbg pb.2.built_component w2).1.invocations
            = countOf c.id w2.invocations + 1 ∧
        countOf c.id (BuiltComponent.render (k2 + 4) dbg pb.2.built_component
            (BuiltComponent.render (k1 + 4) dbg pb.2.built_component w2).1).1.invocations
            = countOf c.id w2.invocations + 2) := by
  intro pb hpb
  rw [build_forced_eq fuel dbg c base_route w hdyn] at hpb
  subst hpb
  refine ⟨rfl, rfl, global_add_ctxDepth w c.id _, global_add_ctxFlag w c.id _,
    global_add_invocations w c.id _, ?_⟩
  intro hitems k1 k2 w2
  rw [hitems]
  rw [built_dynamic_counter_render k1 dbg c.name c.id (pascal_to_kebab c.name) c.id w2]
  rw [built_dynamic_counter_render k2 dbg c.name c.id (pascal_to_kebab c.name) c.id
    { w2 with invocations := bumpCount c.id w2.invocations }]
  have hcount : countOf c.id (bumpCount c.id w2.invocations) = countOf c.id w2.invocations + 1 :=
    countOf_bump_self c.id w2.invocations
  refine ⟨rfl, by rw [hcount], ?_, by simp [countOf_bump_self], ?_⟩
  · apply divWrap_ne_of_length
    rw [hcount]
    simp [tally_length]
  · simp only [hcount]
    simp [countOf_bump_self]

theorem c7_forced_dynamic_witness :
    ((CTree.mk "Dyn" "d1" true false false [] none [Item.counter]).is_dynamic = true) ∧
    ([Item.counter] = [Item.counter]) ∧
    ((CTree.build 1 true (CTree.mk "Dyn" "d1" true false false [] none [Item.counter]) "/api"
        ⟨none, [], [], [], 0⟩).2.built_component.content
      = ContentType.Dynamic { compId := "d1", items := [Item.counter] } ∧
     (BuiltComponent.render 4 true
        (CTree.build 1 true (CTree.mk "Dyn" "d1" true false false [] none [Item.counter]) "/api"
          ⟨none, [], [], [], 0⟩).2.built_component ⟨none, [], [], [], 0⟩).2
      = divWrap "dyn" (tally 1)) := by
  have h := c7_forced_dynamic 0 true
    (CTree.mk "Dyn" "d1" true false false [] none [Item.counter]) "/api"
    ⟨none, [], [], [], 0⟩ rfl _ rfl
  exact ⟨rfl, rfl, h.1, ((h.2.2.2.2.2 rfl 0 0 ⟨none, [], [], [], 0⟩).1)⟩

/-- C8: while inside a temporary render (depth > 0), `render_component`
produces a dynamic component's markup from the static-only fallback
(`render_if_static().unwrap_or_default()`, i.e. empty markup) instead of
invoking its renderer: a cached dynamic component renders to `""` with the
whole world unchanged (in particular no renderer invocation), and a freshly
built forced-dynamic component renders to `""` with the invocation table
unchanged. -/
theorem c8_probe_dynamic_fallback :
    (∀ (fuel : Nat) (dbg : Bool) (context_id : String) (lazy_component : Unit → CTree)
       (w : World) (context : RenderContext) (bc : BuiltComponent),
      w.ctx = some context → 0 < context.temporary_render_depth →
      alookup context_id w.components = some bc → bc.is_dynamic = true →
      render_component (fuel + 1) dbg context_id lazy_component w = (w, "")) ∧
    (∀ (fuel : Nat) (dbg : Bool) (context_id : String) (c : CTree)
       (w : World) (context : RenderContext),
      w.ctx = some context → 0 < context.temporary_render_depth →
      alookup context_id w.components = none → c.is_dynamic = true →
      (render_component (fuel + 2) dbg context_id (fun _ => c) w).2 = "" ∧
      (render_component (fuel + 2) dbg context_id (fun _ => c) w).1.invocations
        = w.invocations) := by
  constructor
  · intro fuel dbg context_id lazy_component w context bc h hd hc hbc
    cases hct : bc.content with
    | Static s =>
      rw [BuiltComponent.is_dynamic, hct] at hbc
      simp at hbc
    | Dynamic r =>
      simp [render_component, h, hc, hd, BuiltComponent.content_cloned,
        BuiltComponent.render_if_static, ContentType.render_if_static, hct]
  · intro fuel dbg context_id c w context h hfresh hdyn hcdyn
    obtain ⟨context2, hctx2, hdep2, hflag2, hbase2, hrun2, hrt2⟩ :=
      global_add_ctx_some w c.id
        (fun _ => { scripts := c.scripts,
                    style := c.style.map (fun s => s.render (pascal_to_kebab c.name)) })
        context h
    simp only [render_component, h, hdyn]
    rw [build_forced_eq fuel dbg c context.base_route w hcdyn]
    simp [hfresh, hctx2, BuiltComponent.render_if_static, ContentType.render_if_static,
      global_add_invocations, hdyn, apply_ite]

theorem c8_probe_dynamic_fallback_witness :
    render_component 1 true "cid" (fun _ => CTree.mk "X" "x" false false false [] none [])
        ⟨some ⟨"/api", [], true, 1, [], []⟩,
         [("cid", ⟨"Dyn", "d1", "dyn", ContentType.Dynamic ⟨"d1", []⟩⟩)], [], [], 0⟩
      = (⟨some ⟨"/api", [], true, 1, [], []⟩,
          [("cid", ⟨"Dyn", "d1", "dyn", ContentType.Dynamic ⟨"d1", []⟩⟩)], [], [], 0⟩, "") ∧
    (render_component 2 true "cd"
        (fun _ => CTree.mk "Dyn" "d2" true false false [] none [])
        ⟨some ⟨"/api", [], true, 1, [], []⟩, [], [], [], 0⟩).2 = "" ∧
    (render_component 2 true "cd"
        (fun _ => CTree.mk "Dyn" "d2" true false false [] none [])
        ⟨some ⟨"/api", [], true, 1, [], []⟩, [], [], [], 0⟩).1.invocations = [] :=
  ⟨c8_probe_dynamic_fallback.1 0 true "cid" _ _ ⟨"/api", [], true, 1, [], []⟩
      ⟨"Dyn", "d1", "dyn", ContentType.Dynamic ⟨"d1", []⟩⟩ rfl (by decide) rfl rfl,
   (c8_probe_dynamic_fallback.2 0 true "cd" (CTree.mk "Dyn" "d2" true false false [] none [])
      ⟨some ⟨"/api", [], true, 1, [], []⟩, [], [], [], 0⟩ ⟨"/api", [], true, 1, [], []⟩
      rfl (by decide) rfl rfl).1,
   (c8_probe_dynamic_fallback.2 0 true "cd" (CTree.mk "Dyn" "d2" true false false [] none [])
      ⟨some ⟨"/api", [], true, 1, [], []⟩, [], [], [], 0⟩ ⟨"/api", [], true, 1, [], []⟩
      rfl (by decide) rfl rfl).2⟩

/-- C4 as amended: entering a temporary render at depth 0 resets the shared
`static_state` flag (no dynamic seen yet) and bumps the depth to 1;
`exit_temporary_render` at depth > 0 decrements the depth and returns the
current value of the shared flag — which records whether any dynamic
component was freshly rendered since the most recent depth-0→1 enter (a fresh
forced-dynamic render at depth > 0 sets it to `false`), not per probe
subtree: the flag is shared across nesting levels, so an inner probe's exit
can return `false` although nothing dynamic was rendered in its own subtree
(see the counterexample). -/
theorem c4_flag_semantics :
    (∀ (w : World) (context : RenderContext), w.ctx = some context →
      context.temporary_render_depth = 0 →
      enter_temporary_render w
        = { w with ctx := some { context with static_state := true, temporary_render_depth := 1 } }) ∧
    (∀ (w : World) (context : RenderContext), w.ctx = some context →
      0 < context.temporary_render_depth →
      exit_temporary_render w
        = ({ w with ctx := some { context with temporary_render_depth := context.temporary_render_depth - 1 } }, context.static_state)) ∧
    (∀ (fuel : Nat) (dbg : Bool) (context_id : String) (c : CTree) (w : World)
       (context : RenderContext),
      w.ctx = some context → 0 < context.temporary_render_depth →
      alookup context_id w.components = none → c.is_dynamic = true →
      ctxFlag (render_component (fuel + 2) dbg context_id (fun _ => c) w).1 = some false) := by
  refine ⟨?_, ?_, ?_⟩
  · intro w context h hd
    simp [enter_temporary_render, h, hd]
  · intro w context h hd
    have : context.temporary_render_depth ≠ 0 := by omega
    simp [exit_temporary_render, h, this]
  · intro fuel dbg context_id c w context h hd hfresh hcdyn
    obtain ⟨context2, hctx2, hdep2, hflag2, hbase2, hrun2, hrt2⟩ :=
      global_add_ctx_some w c.id
        (fun _ => { scripts := c.scripts,
                    style := c.style.map (fun s => s.render (pascal_to_kebab c.name)) })
        context h
    simp only [render_component, h, hd]
    rw [build_forced_eq fuel dbg c context.base_route w hcdyn]
    cases hrn : c.hasRunner <;> cases hrt : c.hasRouter <;>
      simp [hfresh, hctx2, BuiltComponent.render_if_static, ContentType.render_if_static,
        hd, apply_ite, ctxFlag, BuiltComponent.is_dynamic, hrn, hrt]

theorem c4_flag_semantics_witness :
    enter_temporary_render (enter_page ⟨none, [], [], [], 0⟩ ⟨"/api", []⟩)
        = { enter_page ⟨none, [], [], [], 0⟩ ⟨"/api", []⟩ with ctx := some { RenderContext.new "/api" with static_state := true, temporary_render_depth := 1 } } ∧
    exit_temporary_render ⟨some ⟨"/api", [], true, 2, [], []⟩, [], [], [], 0⟩
        = (⟨some ⟨"/api", [], true, 1, [], []⟩, [], [], [], 0⟩, true) ∧
    ctxFlag (render_component 2 true "cd"
        (fun _ => CTree.mk "Dyn" "d2" true false false [] none [])
        ⟨some ⟨"/api", [], true, 1, [], []⟩, [], [], [], 0⟩).1 = some false := by
  refine ⟨c4_flag_semantics.1 _ (RenderContext.new "/api") rfl rfl, ?_, ?_⟩
  · have h := c4_flag_semantics.2.1 ⟨some ⟨"/api", [], true, 2, [], []⟩, [], [], [], 0⟩
      ⟨"/api", [], true, 2, [], []⟩ rfl (by decide)
    simpa using h
  · exact c4_flag_semantics.2.2 0 true "cd" _ _ ⟨"/api", [], true, 1, [], []⟩
      rfl (by decide) rfl rfl

theorem allStatic_eq (t : CTree) :
    CTree.allStatic t = (!t.is_dynamic && Item.listAllStatic t.items) := by
  cases t
  rfl

theorem ctxIds_eq (t : CTree) : CTree.ctxIds t = Item.listCtxIds t.items := by
  cases t
  rfl

theorem compIds_eq (t : CTree) : CTree.compIds t = t.id :: Item.listCompIds t.items := by
  cases t
  rfl

mutual
theorem hasForced_not_allStatic (t : CTree) : CTree.hasForced t = !CTree.allStatic t := by
  cases t with
  | mk nm i dyn hr hu sc st items =>
    rw [CTree.hasForced, CTree.allStatic, listHasForced_not_listAllStatic items]
    cases dyn <;> cases Item.listAllStatic items <;> rfl

theorem itemHasForced_not_allStatic (i : Item) : Item.hasForced i = !Item.allStatic i := by
  cases i with
  | text s => rfl
  | counter => rfl
  | child context_id t =>
    rw [Item.hasForced, Item.allStatic, hasForced_not_allStatic t]

theorem listHasForced_not_listAllStatic (items : List Item) :
    Item.listHasForced items = !Item.listAllStatic items := by
  cases items with
  | nil => rfl
  | cons i rest =>
    rw [Item.listHasForced, Item.listAllStatic, itemHasForced_not_allStatic i,
      listHasForced_not_listAllStatic rest]
    cases Item.allStatic i <;> cases Item.listAllStatic rest <;> rfl
end

theorem enter_temp_eq (w : World) (context : RenderContext) (h : w.ctx = some context) :
    enter_temporary_render w
      = { w with ctx := some ⟨context.base_route, context.new_globals, (if context.temporary_render_depth = 0 then true else context.static_state), context.temporary_render_depth + 1, context.new_runners, context.new_routers⟩ } := by
  by_cases hd : context.temporary_render_depth = 0 <;>
    simp [enter_temporary_render, h, hd]

theorem exit_temp_pos_eq (w : World) (context : RenderContext) (h : w.ctx = some context)
    (hd : 0 < context.temporary_render_depth) :
    exit_temporary_render w
      = ({ w with ctx := some ⟨context.base_route, context.new_globals, context.static_state, context.temporary_render_depth - 1, context.new_runners, context.new_routers⟩ }, context.static_state) := by
  have hne : context.temporary_render_depth ≠ 0 := by omega
  simp [exit_temporary_render, h, hne]


theorem sizeOf_items_lt (c : CTree) : sizeOf c.items < sizeOf c := by
  cases c
  simp [CTree.items]

mutual
theorem probeRun_rc (fuel : Nat) (dbg : Bool) (context_id : String) (t : CTree)
    (w : World) (context : RenderContext) (h : w.ctx = some context)
    (hd : 0 < context.temporary_render_depth)
    (hcid : alookup context_id w.components = none)
    (hfresh : FreshIds (CTree.ctxIds t) w)
    (hnd : (CTree.ctxIds t).Nodup)
    (hfuel : 4 * sizeOf t + 3 ≤ fuel) :
    ∃ context', (render_component fuel dbg context_id (fun _ => t) w).1.ctx = some context' ∧
      context'.temporary_render_depth = context.temporary_render_depth ∧
      context'.base_route = context.base_route ∧
      context'.static_state = (context.static_state && CTree.allStatic t) ∧
      (∀ x, alookup x w.components = none → ¬ x ∈ context_id :: CTree.ctxIds t →
        alookup x (render_component fuel dbg context_id (fun _ => t) w).1.components = none) ∧
      (∀ x, ¬ x ∈ CTree.compIds t →
        countOf x (render_component fuel dbg context_id (fun _ => t) w).1.invocations
          = countOf x w.invocations) := by
  match fuel, hfuel with
  | 0, hfuel => exact absurd hfuel (by omega)
  | fuel + 1, hfuel =>
  obtain ⟨context2, hctx2, hdep2, hbase2, hflag2, hgrow2, hcount2, hbdyn, -, -, -, -, -, -⟩ :=
    probeRun_build fuel dbg t context.base_route w context h
      (by rw [ctxIds_eq] at hfresh; exact hfresh)
      (by rw [ctxIds_eq] at hnd; exact hnd)
      (by omega)
  have hdne : context.temporary_render_depth ≠ 0 := by omega
  cases hru : (CTree.build fuel dbg t context.base_route w).2.runner <;>
    cases hro : (CTree.build fuel dbg t context.base_route w).2.router <;>
  · simp only [render_component, h, hcid, hd, decide_True, if_true, hctx2, hru, hro]
    split <;>
    · refine ⟨_, rfl, hdep2, hbase2, ?_, ?_, ?_⟩
      · rw [hflag2, hbdyn, allStatic_eq]
        simp only [hdne, if_false]
        cases hdyn : t.is_dynamic <;> cases hflag : context.static_state <;>
          cases has : Item.listAllStatic t.items <;> rfl
      · intro x hx1 hx2
        simp only [List.mem_cons, not_or] at hx2
        first
        | (rw [alookup_cons_ne _ _ hx2.1]
           exact hgrow2 x hx1 (by rw [ctxIds_eq] at hx2; exact hx2.2))
        | exact hgrow2 x hx1 (by rw [ctxIds_eq] at hx2; exact hx2.2)
      · intro x hx
        exact hcount2 x hx

theorem probeRun_build (fuel : Nat) (dbg : Bool) (c : CTree) (base : String)
    (w : World) (context : RenderContext) (h : w.ctx = some context)
    (hfresh : FreshIds (Item.listCtxIds c.items) w)
    (hnd : (Item.listCtxIds c.items).Nodup)
    (hfuel : 4 * sizeOf c + 2 ≤ fuel) :
    ∃ context', (CTree.build fuel dbg c base w).1.ctx = some context' ∧
      context'.temporary_render_depth = context.temporary_render_depth ∧
      context'.base_route = context.base_route ∧
      context'.static_state = (if c.is_dynamic then context.static_state
        else ((if context.temporary_render_depth = 0 then true else context.static_state)
                && Item.listAllStatic c.items)) ∧
      (∀ x, alookup x w.components = none → ¬ x ∈ Item.listCtxIds c.items →
        alookup x (CTree.build fuel dbg c base w).1.components = none) ∧
      (∀ x, ¬ x ∈ CTree.compIds c →
        countOf x (CTree.build fuel dbg c base w).1.invocations = countOf x w.invocations) ∧
      (CTree.build fuel dbg c base w).2.built_component.is_dynamic
        = (c.is_dynamic || !((if context.temporary_render_depth = 0 then true else context.static_state)
              && Item.listAllStatic c.items)) ∧
      (c.is_dynamic = false → ¬ c.id ∈ Item.listCompIds c.items →
        countOf c.id (CTree.build fuel dbg c base w).1.invocations
          = countOf c.id w.invocations + 1) ∧
      (CTree.build fuel dbg c base w).2.built_component.name = c.name ∧
      (CTree.build fuel dbg c base w).2.built_component.id = c.id ∧
      (CTree.build fuel dbg c base w).2.built_component.class_name = pascal_to_kebab c.name ∧
      (CTree.build fuel dbg c base w).2.runner = (if c.hasRunner then some c.id else none) ∧
      ((c.is_dynamic || !((if context.temporary_render_depth = 0 then true else context.static_state)
            && Item.listAllStatic c.items)) = true →
        (CTree.build fuel dbg c base w).2.built_component.content
          = ContentType.Dynamic { compId := c.id, items := c.items }) ∧
      ((c.is_dynamic || !((if context.temporary_render_depth = 0 then true else context.static_state)
            && Item.listAllStatic c.items)) = false →
        ∃ m, (CTree.build fuel dbg c base w).2.built_component.content
          = ContentType.Static m) := by
  match fuel, hfuel with
  | 0, hfuel => exact absurd hfuel (by omega)
  | fuel + 1, hfuel =>
  cases hdyn : c.is_dynamic with
  | true =>
    rw [build_forced_eq fuel dbg c base w hdyn]
    obtain ⟨context2, hctx2, hdep2, hflag2, hbase2, -, -⟩ :=
      global_add_ctx_some w c.id
        (fun _ => { scripts := c.scripts,
                    style := c.style.map (fun s => s.render (pascal_to_kebab c.name)) })
        context h
    refine ⟨context2, hctx2, hdep2, hbase2, by simp [hflag2, hdyn], ?_, ?_,
      by simp [BuiltComponent.is_dynamic, hdyn], ?_, rfl, rfl, rfl, rfl,
      fun _ => rfl, ?_⟩
    · intro x hx1 _
      rw [global_add_components]
      exact hx1
    · intro x _
      rw [global_add_invocations]
    · intro hfalse
      exact absurd hfalse (by simp)
    · intro hfalse
      simp at hfalse
  | false =>
    have hent := enter_temp_eq w context h
    obtain ⟨context_e, hctxe, hdepe, hbasee, hflage, hgrowe, hcounte, hcnt1⟩ :=
      probeRun_invoke fuel dbg c.id c.items
        { w with ctx := some ⟨context.base_route, context.new_globals,
            (if context.temporary_render_depth = 0 then true else context.static_state),
            context.temporary_render_depth + 1, context.new_runners, context.new_routers⟩ }
        ⟨context.base_route, context.new_globals,
            (if context.temporary_render_depth = 0 then true else context.static_state),
            context.temporary_render_depth + 1, context.new_runners, context.new_routers⟩
        rfl (by simp) hfresh hnd (by have hlt := sizeOf_items_lt c; omega)
    simp only [] at hdepe hbasee hflage
    simp only [] at hgrowe hcounte hcnt1
    rw [← hent] at hctxe hgrowe hcounte hcnt1
    have hexit := exit_temp_pos_eq _ context_e hctxe (by rw [hdepe]; simp)
    simp only [CTree.build, hdyn, Bool.not_false, if_true]
    rw [hexit]
    simp only [apply_ite, ite_self]
    obtain ⟨context_g, hctxg, hdepg, hflagg, hbaseg, -, -⟩ :=
      global_add_ctx_some
        { (invokeRenderer fuel dbg c.id c.items (enter_temporary_render w)).1 with
          ctx := some ⟨context_e.base_route, context_e.new_globals, context_e.static_state,
            context_e.temporary_render_depth - 1, context_e.new_runners, context_e.new_routers⟩ }
        c.id
        (fun _ => { scripts := c.scripts,
                    style := Option.map (fun s => s.render (pascal_to_kebab c.name)) c.style })
        ⟨context_e.base_route, context_e.new_globals, context_e.static_state,
          context_e.temporary_render_depth - 1, context_e.new_runners, context_e.new_routers⟩
        rfl
    refine ⟨context_g, hctxg, ?_, ?_, ?_, ?_, ?_, ?_, ?_, trivial, trivial, trivial, trivial, ?_, ?_⟩
    · simp only [hdepg, hdepe]
      omega
    · simp only [hbaseg, hbasee]
    · rw [if_neg (by simp : ¬ (false = true)), hflagg]
      exact hflage
    · intro x hx1 hx2
      rw [global_add_components]
      exact hgrowe x hx1 hx2
    · intro x hx
      rw [compIds_eq] at hx
      simp only [List.mem_cons, not_or] at hx
      rw [global_add_invocations]
      exact hcounte x (by simp only [List.mem_cons, not_or]; exact hx)
    · rw [hflage]
      cases h1 : (if context.temporary_render_depth = 0 then true else context.static_state) <;>
        cases h2 : Item.listAllStatic c.items <;>
          simp [BuiltComponent.is_dynamic, h1, h2]
    · intro _ hni
      rw [global_add_invocations]
      exact hcnt1 hni
    · intro hcond
      rw [hflage]
      rw [Bool.false_or] at hcond
      rw [if_pos hcond]
    · intro hcond
      rw [Bool.false_or] at hcond
      have hcond2 : ((if context.temporary_render_depth = 0 then true else context.static_state)
          && Item.listAllStatic c.items) = true := by
        cases hb : ((if context.temporary_render_depth = 0 then true else context.static_state)
            && Item.listAllStatic c.items)
        · rw [hb] at hcond
          simp at hcond
        · rfl
      rw [hflage]
      exact ⟨(invokeRenderer fuel dbg c.id c.items (enter_temporary_render w)).2,
        by rw [if_neg (by rw [hcond2]; simp)]⟩

theorem probeRun_invoke (fuel : Nat) (dbg : Bool) (compId : String) (items : List Item)
    (w : World) (context : RenderContext) (h : w.ctx = some context)
    (hd : 0 < context.temporary_render_depth)
    (hfresh : FreshIds (Item.listCtxIds items) w)
    (hnd : (Item.listCtxIds items).Nodup)
    (hfuel : 4 * sizeOf items + 2 ≤ fuel) :
    ∃ context', (invokeRenderer fuel dbg compId items w).1.ctx = some context' ∧
      context'.temporary_render_depth = context.temporary_render_depth ∧
      context'.base_route = context.base_route ∧
      context'.static_state = (context.static_state && Item.listAllStatic items) ∧
      (∀ x, alookup x w.components = none → ¬ x ∈ Item.listCtxIds items →
        alookup x (invokeRenderer fuel dbg compId items w).1.components = none) ∧
      (∀ x, ¬ x ∈ compId :: Item.listCompIds items →
        countOf x (invokeRenderer fuel dbg compId items w).1.invocations
          = countOf x w.invocations) ∧
      (¬ compId ∈ Item.listCompIds items →
        countOf compId (invokeRenderer fuel dbg compId items w).1.invocations
          = countOf compId w.invocations + 1) := by
  match fuel, hfuel with
  | 0, hfuel => exact absurd hfuel (by omega)
  | fuel + 1, hfuel =>
  obtain ⟨context', hctx', hdep', hbase', hflag', hgrow', hcount'⟩ :=
    probeRun_items fuel dbg items (countOf compId w.invocations + 1)
      { w with invocations := bumpCount compId w.invocations }
      context h hd hfresh hnd (by omega)
  simp only [invokeRenderer]
  refine ⟨context', hctx', hdep', hbase', hflag', hgrow', ?_, ?_⟩
  · intro x hx
    simp only [List.mem_cons, not_or] at hx
    rw [hcount' x hx.2]
    exact countOf_bump_ne _ hx.1
  · intro hx
    rw [hcount' compId hx]
    exact countOf_bump_self compId w.invocations

theorem probeRun_items (fuel : Nat) (dbg : Bool) (items : List Item) (n : Nat)
    (w : World) (context : RenderContext) (h : w.ctx = some context)
    (hd : 0 < context.temporary_render_depth)
    (hfresh : FreshIds (Item.listCtxIds items) w)
    (hnd : (Item.listCtxIds items).Nodup)
    (hfuel : 4 * sizeOf items + 1 ≤ fuel) :
    ∃ context', (renderItems fuel dbg items n w).1.ctx = some context' ∧
      context'.temporary_render_depth = context.temporary_render_depth ∧
      context'.base_route = context.base_route ∧
      context'.static_state = (context.static_state && Item.listAllStatic items) ∧
      (∀ x, alookup x w.components = none → ¬ x ∈ Item.listCtxIds items →
        alookup x (renderItems fuel dbg items n w).1.components = none) ∧
      (∀ x, ¬ x ∈ Item.listCompIds items →
        countOf x (renderItems fuel dbg items n w).1.invocations
          = countOf x w.invocations) := by
  match fuel, hfuel with
  | 0, hfuel => exact absurd hfuel (by omega)
  | fuel + 1, hfuel =>
  cases items with
  | nil =>
    have h1 : (renderItems (fuel + 1) dbg [] n w).1 = w := by simp [renderItems]
    rw [h1]
    exact ⟨context, h, rfl, rfl, by simp [Item.listAllStatic], fun x hx1 _ => hx1,
      fun x _ => rfl⟩
  | cons i rest =>
    cases i with
    | text s =>
      simp only [Item.listCtxIds, Item.ctxIds, List.nil_append] at hfresh hnd
      obtain ⟨context', hctx', hdep', hbase', hflag', hgrow', hcount'⟩ :=
        probeRun_items fuel dbg rest n w context h hd hfresh hnd (by simp at hfuel ⊢; omega)
      simp only [renderItems]
      refine ⟨context', hctx', hdep', hbase', ?_, ?_, ?_⟩
      · rw [hflag']
        simp [Item.listAllStatic, Item.allStatic]
      · intro x hx1 hx2
        simp only [Item.listCtxIds, Item.ctxIds, List.nil_append] at hx2
        exact hgrow' x hx1 hx2
      · intro x hx
        simp only [Item.listCompIds, Item.compIds, List.nil_append] at hx
        exact hcount' x hx
    | counter =>
      simp only [Item.listCtxIds, Item.ctxIds, List.nil_append] at hfresh hnd
      obtain ⟨context', hctx', hdep', hbase', hflag', hgrow', hcount'⟩ :=
        probeRun_items fuel dbg rest n w context h hd hfresh hnd (by simp at hfuel ⊢; omega)
      simp only [renderItems]
      refine ⟨context', hctx', hdep', hbase', ?_, ?_, ?_⟩
      · rw [hflag']
        simp [Item.listAllStatic, Item.allStatic]
      · intro x hx1 hx2
        simp only [Item.listCtxIds, Item.ctxIds, List.nil_append] at hx2
        exact hgrow' x hx1 hx2
      · intro x hx
        simp only [Item.listCompIds, Item.compIds, List.nil_append] at hx
        exact hcount' x hx
    | child cid t =>
      rw [Item.listCtxIds, Item.ctxIds] at hfresh hnd
      rw [List.nodup_append] at hnd
      obtain ⟨hnd1, hnd2, hdisj⟩ := hnd
      have hcid : alookup cid w.components = none :=
        hfresh cid (by simp)
      have hfresh_t : FreshIds (CTree.ctxIds t) w := fun x hx =>
        hfresh x (by simp [hx])
      have hfresh_rest : FreshIds (Item.listCtxIds rest) w := fun x hx =>
        hfresh x (by simp [hx])
      obtain ⟨context_p, hctxp, hdepp, hbasep, hflagp, hgrowp, hcountp⟩ :=
        probeRun_rc fuel dbg cid t w context h hd hcid hfresh_t
          (List.Nodup.of_cons hnd1) (by simp at hfuel ⊢; omega)
      obtain ⟨context_q, hctxq, hdepq, hbaseq, hflagq, hgrowq, hcountq⟩ :=
        probeRun_items fuel dbg rest n
          (render_component fuel dbg cid (fun _ => t) w).1
          context_p hctxp (by rw [hdepp]; exact hd)
          (fun x hx => hgrowp x (hfresh_rest x hx) (fun hmem => hdisj hmem hx))
          hnd2 (by simp at hfuel ⊢; omega)
      simp only [renderItems]
      refine ⟨context_q, hctxq, hdepq.trans hdepp, hbaseq.trans hbasep, ?_, ?_, ?_⟩
      · rw [hflagq, hflagp]
        simp only [Item.listAllStatic, Item.allStatic, Bool.and_assoc]
      · intro x hx1 hx2
        simp only [Item.listCtxIds, Item.ctxIds, List.mem_append, List.mem_cons, not_or] at hx2
        refine hgrowq x ?_ hx2.2
        exact hgrowp x hx1 (by simp only [List.mem_cons, not_or]; exact hx2.1)
      · intro x hx
        simp only [Item.listCompIds, Item.compIds, List.mem_append, not_or] at hx
        rw [hcountq x hx.2]
        exact hcountp x hx.1
end

/-- Supporting fact for the propagation analysis: when every descendant
call-site id is fresh and distinct — so every descendant render is actually
built during the probe — a component not declared forced-dynamic whose body
contains a reachable forced-dynamic component is classified Dynamic after
build, its content wraps the renderer and state, the shared `static_state`
flag is false after the build, and an enclosing probe's
`exit_temporary_render` returns false.  Propagation thus holds on the fresh
fragment only; see the cached-descendant divergence below. -/
theorem fresh_dynamic_propagation (fuel : Nat) (dbg : Bool) (c : CTree) (base : String)
    (w : World) (context : RenderContext) (h : w.ctx = some context)
    (hdyn : c.is_dynamic = false)
    (hforced : Item.listHasForced c.items = true)
    (hfresh : FreshIds (Item.listCtxIds c.items) w)
    (hnd : (Item.listCtxIds c.items).Nodup)
    (hfuel : 4 * sizeOf c + 2 ≤ fuel) :
    (CTree.build fuel dbg c base w).2.built_component.is_dynamic = true ∧
    (CTree.build fuel dbg c base w).2.built_component.content
      = ContentType.Dynamic { compId := c.id, items := c.items } ∧
    (∃ context', (CTree.build fuel dbg c base w).1.ctx = some context' ∧
      context'.static_state = false ∧
      context'.temporary_render_depth = context.temporary_render_depth) ∧
    (0 < context.temporary_render_depth →
      (exit_temporary_render (CTree.build fuel dbg c base w).1).2 = false) := by
  have h2 := listHasForced_not_listAllStatic c.items
  rw [hforced] at h2
  have haS : Item.listAllStatic c.items = false := by
    cases hh : Item.listAllStatic c.items
    · rfl
    · rw [hh] at h2
      exact absurd h2 (by simp)
  obtain ⟨context', hctx', hdep', hbase', hflag', hgrow', hcount', hbdyn, hcnt1,
    hnm, hid, hcls, hrun, hcdyn, hcstat⟩ :=
    probeRun_build fuel dbg c base w context h hfresh hnd hfuel
  have hcondtrue : (c.is_dynamic
      || !((if context.temporary_render_depth = 0 then true else context.static_state)
            && Item.listAllStatic c.items)) = true := by
    rw [hdyn, haS]
    simp
  have hflagfalse : context'.static_state = false := by
    rw [hflag']
    simp [hdyn, haS]
  refine ⟨?_, hcdyn hcondtrue, ⟨context', hctx', hflagfalse, hdep'⟩, ?_⟩
  · rw [hbdyn, hcondtrue]
  · intro hd
    have hexit := exit_temp_pos_eq _ context' hctx' (by rw [hdep']; exact hd)
    rw [hexit]
    exact hflagfalse

theorem fresh_dynamic_propagation_instance :
    (CTree.build 100000 true
        (CTree.mk "Parent" "p1" false false false [] none
          [Item.child "cc" (CTree.mk "Kid" "k1" true false false [] none [])])
        "/api"
        (enter_temporary_render
          (enter_page ⟨none, [], [], [], 0⟩ ⟨"/api", []⟩))).2.built_component.is_dynamic
      = true ∧
    (CTree.build 100000 true
        (CTree.mk "Parent" "p1" false false false [] none
          [Item.child "cc" (CTree.mk "Kid" "k1" true false false [] none [])])
        "/api"
        (enter_temporary_render
          (enter_page ⟨none, [], [], [], 0⟩ ⟨"/api", []⟩))).2.built_component.content
      = ContentType.Dynamic { compId := "p1", items := [Item.child "cc" (CTree.mk "Kid" "k1" true false false [] none [])] } ∧
    (exit_temporary_render
        (CTree.build 100000 true
          (CTree.mk "Parent" "p1" false false false [] none
            [Item.child "cc" (CTree.mk "Kid" "k1" true false false [] none [])])
          "/api"
          (enter_temporary_render
            (enter_page ⟨none, [], [], [], 0⟩ ⟨"/api", []⟩))).1).2 = false := by
  have hc := fresh_dynamic_propagation 100000 true
    (CTree.mk "Parent" "p1" false false false [] none
      [Item.child "cc" (CTree.mk "Kid" "k1" true false false [] none [])])
    "/api"
    (enter_temporary_render (enter_page ⟨none, [], [], [], 0⟩ ⟨"/api", []⟩))
    ⟨"/api", [], true, 1, [], []⟩
    rfl rfl (by decide) (by intro x hx; rfl) (by decide) (by decide)
  exact ⟨hc.1, hc.2.1, hc.2.2.2 (by decide)⟩

/-- C3: divergence on a cached forced-dynamic descendant.  The world is
produced by the model itself: a depth-0 `render_component` of the
forced-dynamic component `Kid` at call-site `"cc"` caches its
`BuiltComponent` (first conjunct: the cache holds a dynamic component at
`"cc"`); a temporary render is then in progress (second conjunct: depth 1)
and the build of the non-forced parent `Parent`, whose body renders the same
call-site `"cc"`, encounters that forced-dynamic descendant render — yet the
cached path of `render_component` (render_context.rs:216-235) never clears
`static_state`, so the parent is classified Static (not Dynamic as the claim
requires), its frozen content embeds the empty static fallback where the
dynamic child belongs, and the enclosing probe's `exit_temporary_render`
returns true: the "was dynamic" signal does not propagate. -/
theorem c3_cached_dynamic_not_propagated :
    Option.map BuiltComponent.is_dynamic
      (alookup "cc"
        (render_component 50 true "cc"
          (fun _ => CTree.mk "Kid" "k1" true false false [] none [])
          (enter_page ⟨none, [], [], [], 0⟩ ⟨"/api", []⟩)).1.components)
      = some true ∧
    (∃ context,
      (enter_temporary_render
        (render_component 50 true "cc"
          (fun _ => CTree.mk "Kid" "k1" true false false [] none [])
          (enter_page ⟨none, [], [], [], 0⟩ ⟨"/api", []⟩)).1).ctx = some context ∧
      context.temporary_render_depth = 1) ∧
    (CTree.build 50 true
        (CTree.mk "Parent" "p1" false false false [] none
          [Item.child "cc" (CTree.mk "Kid" "k1" true false false [] none [])])
        "/api"
        (enter_temporary_render
          (render_component 50 true "cc"
            (fun _ => CTree.mk "Kid" "k1" true false false [] none [])
            (enter_page ⟨none, [], [], [], 0⟩ ⟨"/api", []⟩)).1)).2.built_component.is_dynamic
      = false ∧
    (CTree.build 50 true
        (CTree.mk "Parent" "p1" false false false [] none
          [Item.child "cc" (CTree.mk "Kid" "k1" true false false [] none [])])
        "/api"
        (enter_temporary_render
          (render_component 50 true "cc"
            (fun _ => CTree.mk "Kid" "k1" true false false [] none [])
            (enter_page ⟨none, [], [], [], 0⟩ ⟨"/api", []⟩)).1)).2.built_component.content
      = ContentType.Static "" ∧
    (exit_temporary_render
        (CTree.build 50 true
          (CTree.mk "Parent" "p1" false false false [] none
            [Item.child "cc" (CTree.mk "Kid" "k1" true false false [] none [])])
          "/api"
          (enter_temporary_render
            (render_component 50 true "cc"
              (fun _ => CTree.mk "Kid" "k1" true false false [] none [])
              (enter_page ⟨none, [], [], [], 0⟩ ⟨"/api", []⟩)).1)).1).2 = true := by
  exact ⟨rfl, ⟨_, rfl, rfl⟩, rfl, rfl, rfl⟩

